import Mathlib

/-!
Shallow embedding of `submission/automation.py` (event_creation repository).

The file models the two components of the orchestration engine:

* `Importer` — the per-work-unit handle (`Importer` class): stage-scoped
  error slots, checksum-gated transfer decision with memoization, and the
  `run` outcome contract.
* `Automator` — the orchestrator (`Automator` class): the three population
  phases over a hierarchical index, the existing-session fallback cascade,
  the future-session remap propagation, and the sorted report order.

External collaborators (pipeline builders, the transferer's
`check_checksums`, the pipeline's `run`, and the read-only JSON index) are
modelled as explicit oracle data: a builder either succeeds or raises
(`Option Err`), a checksum call either returns a `Bool` or raises
(`CheckOutcome`), a pipeline run either succeeds, raises the distinguished
`UnTransferrableException`, or raises any other exception (`RunOutcome`).
Python attribute access on `None` (the uninitialized handle's
`self.pipeline` / `self.transferer`) raises `AttributeError`, modelled by
`Err.attributeError`.
-/

namespace EventCreation

/-- Opaque Python exception payloads. `attributeError` is the exception
raised by attribute access on `None` (uninitialized handle's pipeline or
transferer); `exn n` is any other exception object. -/
inductive Err where
  | attributeError : Err
  | exn : Nat → Err
deriving DecidableEq, Repr

/-- Outcome of one call to the external `transferer.check_checksums()`:
either it returns a boolean or it raises. -/
inductive CheckOutcome where
  | ok : Bool → CheckOutcome
  | raise : Err → CheckOutcome
deriving DecidableEq, Repr

/-- Outcome of one call to the external `pipeline.run()`: success, the
distinguished `UnTransferrableException`, or any other exception. -/
inductive RunOutcome where
  | ok : RunOutcome
  | untransferrable : Err → RunOutcome
  | failure : Err → RunOutcome
deriving DecidableEq, Repr

/-- The closed work-unit kind enumeration (`Importer.MONTAGE` … classes
constants 1–5). -/
inductive ImporterKind where
  | montage : ImporterKind
  | buildEvents : ImporterKind
  | buildEphys : ImporterKind
  | convertEvents : ImporterKind
  | convertEphys : ImporterKind
deriving DecidableEq, Repr

/-- `Importer.LABELS`. -/
def LABELS : ImporterKind → String
  | .montage => "Montage Importer"
  | .buildEvents => "Events Builder"
  | .buildEphys => "Ephys Builder"
  | .convertEvents => "Events Converter"
  | .convertEphys => "Ephys Converter"

/-- The identity-parameter mapping (`kwargs`).  The montage phase passes
only subject/montage/protocol/code; the event phases pass all fields, so
each field other than `subject` is optional (absent key = `none`).
Session numbers are `Nat` (Python ints; `int()` on an int is the
identity). -/
structure Kwargs where
  subject : String
  montage : Option String
  experiment : Option String
  session : Option Nat
  new_experiment : Option String
  original_session : Option Nat
  do_math : Option Bool
  protocol : Option String
  code : Option String
  do_compare : Option Bool
deriving DecidableEq, Repr

/-- The four stage-scoped error slots (`self.errors`). -/
structure Errors where
  init : Option Err
  check : Option Err
  transfer : Option Err
  processing : Option Err
deriving DecidableEq, Repr

/-- The fresh error record `{'init': None, 'check': None, 'transfer': None,
'processing': None}`. -/
def Errors.none_all : Errors := ⟨none, none, none, none⟩

/-- The four error-slot keys. -/
inductive ErrorType where
  | init : ErrorType
  | check : ErrorType
  | transfer : ErrorType
  | processing : ErrorType
deriving DecidableEq, Repr

/-- Update one slot of the error record (`self.errors[error_type] = error`). -/
def Errors.set (es : Errors) : ErrorType → Err → Errors
  | .init, e => { es with init := some e }
  | .check, e => { es with check := some e }
  | .transfer, e => { es with transfer := some e }
  | .processing, e => { es with processing := some e }

/-- The work-unit handle (`Importer` instance state).
`should_transfer_memo` embeds the `_should_transfer` attribute
(`none` = Python `None`, the unknown tri-state).  The pipeline and
transferer objects themselves are external; whether they are present is
exactly `initialized` (on init failure both are set to `None`). -/
structure Importer where
  kind : ImporterKind
  label : String
  kwargs : Kwargs
  subject : String
  errors : Errors
  should_transfer_memo : Option Bool
  errored : Bool
  processed : Bool
  transferred : Bool
  initialized : Bool
deriving DecidableEq, Repr

/-- `Importer.set_error`: store the error in its slot and raise the
`errored` flag. -/
def Importer.set_error (imp : Importer) (t : ErrorType) (e : Err) : Importer :=
  { imp with errors := imp.errors.set t e, errored := true }

/-- `Importer.__init__` for a registered kind: fields are initialized, then
the builder is invoked; a builder exception (`initErr = some e`) is caught
and stored as the `init` error with `initialized = False`, the pipeline
and transferer left unset.  (The unregistered-kind immediate failure is
outside this total model: `ImporterKind` is the closed enumeration.) -/
def Importer.construct (kind : ImporterKind) (kwargs : Kwargs) (initErr : Option Err) : Importer :=
  let base : Importer :=
    { kind := kind, label := LABELS kind, kwargs := kwargs, subject := kwargs.subject,
      errors := Errors.none_all, should_transfer_memo := none,
      errored := false, processed := false, transferred := false, initialized := true }
  match initErr with
  | none => base
  | some e => { base.set_error .init e with initialized := false }

/-- The outcome of evaluating `self.transferer.check_checksums()`: for an
uninitialized handle `self.transferer` is `None`, so the attribute access
itself raises `AttributeError` regardless of the oracle. -/
def Importer.transferer_outcome (imp : Importer) (o : CheckOutcome) : CheckOutcome :=
  if imp.initialized then o else .raise .attributeError

/-- `Importer.check`: try `check_checksums`; on success store the boolean
into `_should_transfer`; on any exception record the `check` error and
conservatively store `False`. -/
def Importer.check (imp : Importer) (o : CheckOutcome) : Importer :=
  match imp.transferer_outcome o with
  | .ok b => { imp with should_transfer_memo := some b }
  | .raise e => { imp.set_error .check e with should_transfer_memo := some false }

/-- `Importer.check` together with its Python return value
(`return self._should_transfer`, which is always a boolean after the
body). -/
def Importer.check_call (imp : Importer) (o : CheckOutcome) : Importer × Bool :=
  let imp2 := imp.check o
  (imp2, imp2.should_transfer_memo.getD false)

/-- The `should_transfer` property read: lazily invoke `check` when the
handle is initialized and no value is memoized, then return
`_should_transfer`.  The third component instruments whether this read
invoked `check` (i.e. consulted the transferer). -/
def Importer.should_transfer_read (imp : Importer) (o : CheckOutcome) :
    Importer × Option Bool × Bool :=
  if imp.initialized && imp.should_transfer_memo.isNone then
    let imp2 := imp.check o
    (imp2, imp2.should_transfer_memo, true)
  else
    (imp, imp.should_transfer_memo, false)

/-- The outcome of evaluating `self.pipeline.run()`: for an uninitialized
handle `self.pipeline` is `None`, so the attribute access raises
`AttributeError` — an ordinary exception, not `UnTransferrableException`. -/
def Importer.pipeline_outcome (imp : Importer) (o : RunOutcome) : RunOutcome :=
  if imp.initialized then o else .failure .attributeError

/-- `Importer.run`: try `pipeline.run()`; on success set `processed` and
`transferred`; on `UnTransferrableException` record the `transfer` error;
on any other exception record the `processing` error. -/
def Importer.run (imp : Importer) (o : RunOutcome) : Importer :=
  match imp.pipeline_outcome o with
  | .ok => { imp with processed := true, transferred := true }
  | .untransferrable e => imp.set_error .transfer e
  | .failure e => imp.set_error .processing e

/-- The states of a handle reachable from construction under any sequence
of `check` and `run` calls (the `should_transfer` read is either the
identity or one `check` call, so it is subsumed). -/
inductive Reachable : Importer → Prop where
  | constructed (kind : ImporterKind) (kwargs : Kwargs) (initErr : Option Err) :
      Reachable (Importer.construct kind kwargs initErr)
  | step_check {imp : Importer} (o : CheckOutcome) :
      Reachable imp → Reachable (imp.check o)
  | step_run {imp : Importer} (o : RunOutcome) :
      Reachable imp → Reachable (imp.run o)

/-- `Automator.MATH_TASKS`. -/
def MATH_TASKS : List String :=
  ["FR1", "FR2", "FR3", "catFR1", "catFR2", "catFR3", "PAL1", "PAL2", "PAL3", "ltpFR", "ltpFR2"]

/-- `Automator.INCLUDE_TRANSFERRED` (class constant, default off). -/
def INCLUDE_TRANSFERRED : Bool := false

/-- Iterating the `Automator.EXPERIMENTS` dict (`for experiment in
self.EXPERIMENTS`) yields its keys; the dict has the single key `'r1'`. -/
def EXPERIMENTS_KEYS : List String := ["r1"]

/-- Python `montage.split('.')[1]`: the component after the first dot
(montage identifiers have the form `index.subindex`).  Total model: on a
string with no dot, where Python would raise `IndexError`, it returns
`""`. -/
def splitDot1 (s : String) : String := (s.splitOn ".").getD 1 ""

/-- Python `max` over a nonempty list, `d` the value for the (never
exercised) empty case where Python raises `ValueError`. -/
def listMax {α : Type} [Max α] (d : α) : List α → α
  | [] => d
  | x :: xs => xs.foldl max x

/-- One session record of the hierarchical index, as consulted by
`build_existing_event_importer_kwargs` on the session-filtered view:
its montage list, the `subject_alias` value, and the optional remap
metadata (`none` models the `KeyError` branch of `get_value`). -/
structure SessionRecord where
  montages : List String
  subject_alias : String
  original_session : Option Nat
  original_experiment : Option String

/-- The `(subject, montage=max_montage, experiment)`-filtered view used by
`add_future_events_importers`: its session list and the per-session
optional remap metadata. -/
structure FutureView where
  sessions : List Nat
  original_session : Nat → Option Nat
  original_experiment : Nat → Option String

/-- The read-only hierarchical index (`JsonIndexReader`), abstracted to
exactly the queries `Automator` performs. -/
structure Index where
  subjects : List String
  montages : String → List String
  subject_alias : String → String → String
  experiments : List String
  exp_subjects : String → List String
  sessions : String → String → List Nat
  session_record : String → String → Nat → SessionRecord
  future_view : String → String → String → FutureView

/-- The external builder/transferer behavior during a population pass, as a
function of the work-unit identity: whether the pipeline builder raises,
and the outcome of the one `check_checksums` call the phase makes on the
freshly built handle. -/
structure Env where
  initErr : ImporterKind → Kwargs → Option Err
  checkOutcome : ImporterKind → Kwargs → CheckOutcome

/-- The orchestrator state (`Automator.__init__`: protocol, index, and the
insertion-ordered importer list). -/
structure Automator where
  protocol : String
  index : Index
  importers : List Importer

/-- The montage-phase kwargs
(`subject=subject, montage=montage, protocol=self.protocol, code=code`). -/
def montage_kwargs (protocol subject montage code : String) : Kwargs :=
  { subject := subject, montage := some montage, experiment := none, session := none,
    new_experiment := none, original_session := none, do_math := none,
    protocol := some protocol, code := some code, do_compare := none }

/-- The per-(subject, montage) body of `add_existing_montage_importers`:
build the Montage handle, call `check()`, and keep the (post-check) handle
iff the check returned true, or the handle errored, or the
include-transferred flag is set. -/
def montage_survivors (env : Env) (protocol : String) (idx : Index) : List Importer :=
  idx.subjects.flatMap fun subject =>
    (idx.montages subject).flatMap fun montage =>
      let code := idx.subject_alias subject (splitDot1 montage)
      let kw := montage_kwargs protocol subject montage code
      let importer := Importer.construct .montage kw (env.initErr .montage kw)
      let r := importer.check_call (env.checkOutcome .montage kw)
      if r.2 || r.1.errored || INCLUDE_TRANSFERRED then [r.1] else []

/-- `Automator.add_existing_montage_importers` (appends to
`self.importers`). -/
def add_existing_montage_importers (env : Env) (a : Automator) : Automator :=
  { a with importers := a.importers ++ montage_survivors env a.protocol a.index }

/-- `Automator.session_indexes`: the generator yielding
`(subject, experiment, session, session-filtered view)` over experiments,
then subjects of the experiment view, then sessions of the subject view. -/
def session_indexes (idx : Index) : List (String × String × Nat × SessionRecord) :=
  idx.experiments.flatMap fun experiment =>
    (idx.exp_subjects experiment).flatMap fun subject =>
      (idx.sessions experiment subject).map fun session =>
        (subject, experiment, session, idx.session_record experiment subject session)

/-- `Automator.build_existing_event_importer_kwargs`: montage is the first
montage of the session view; remap metadata defaults to the current
session/experiment on `KeyError`; `do_math` is membership in
`MATH_TASKS`. -/
def build_existing_event_importer_kwargs (protocol subject experiment : String)
    (session : Nat) (rec : SessionRecord) (do_compare : Bool) : Kwargs :=
  let montage := rec.montages.getD 0 ""
  let do_math := decide (experiment ∈ MATH_TASKS)
  let code := rec.subject_alias
  let original_session := match rec.original_session with
    | some n => n
    | none => session
  let original_experiment := match rec.original_experiment with
    | some e => e
    | none => experiment
  { subject := subject, montage := some montage, experiment := some original_experiment,
    session := some session, new_experiment := some experiment,
    original_session := some original_session, do_math := some do_math,
    protocol := some protocol, code := some code, do_compare := some do_compare }

/-- The per-session body of `add_existing_events_importers`: the fallback
cascade between the BuildEvents handle and the ConvertEvents handle built
with the same kwargs.  Returns the handles appended for this session. -/
def existing_session_survivors (env : Env) (kwargs : Kwargs) : List Importer :=
  let importer := Importer.construct .buildEvents kwargs (env.initErr .buildEvents kwargs)
  let r := importer.check_call (env.checkOutcome .buildEvents kwargs)
  if !r.2 && !r.1.errored then []
  else if !r.1.errored then [r.1]
  else
    let importer2 := Importer.construct .convertEvents kwargs (env.initErr .convertEvents kwargs)
    let r2 := importer2.check_call (env.checkOutcome .convertEvents kwargs)
    if !r2.2 && !r2.1.errored then []
    else if !r.1.errored then [r.1]
    else if !r2.1.errored then [r2.1]
    else [r.1]

/-- The handles appended by `add_existing_events_importers`: the cascade
run over every enumerated (subject, experiment, session) triple, with
`do_compare=True` (the call site's default). -/
def events_survivors (env : Env) (protocol : String) (idx : Index) : List Importer :=
  (session_indexes idx).flatMap fun q =>
    existing_session_survivors env
      (build_existing_event_importer_kwargs protocol q.1 q.2.1 q.2.2.1 q.2.2.2 true)

/-- `Automator.add_existing_events_importers` (appends to
`self.importers`). -/
def add_existing_events_importers (env : Env) (a : Automator) : Automator :=
  { a with importers := a.importers ++ events_survivors env a.protocol a.index }

/-- The kwargs computed by the body of `add_future_events_importers` for
one (subject, experiment) at the maximal montage: next session number,
remap-metadata propagation, `do_compare=False`. -/
def future_session_kwargs (protocol subject max_montage experiment code : String)
    (fv : FutureView) : Kwargs :=
  let sso : Nat × Nat × String :=
    match fv.sessions with
    | [] => (0, 0, experiment)
    | s :: ss =>
      let max_session := listMax 0 (s :: ss)
      let original_session := match fv.original_session max_session with
        | some n => n + 1
        | none => max_session + 1
      let original_experiment := match fv.original_experiment max_session with
        | some e => e
        | none => experiment
      (max_session + 1, original_session, original_experiment)
  { subject := subject, montage := some max_montage, experiment := some sso.2.2,
    session := some sso.1, new_experiment := some experiment,
    original_session := some sso.2.1, do_math := some (decide (experiment ∈ MATH_TASKS)),
    protocol := some protocol, code := some code, do_compare := some false }

/-- The handles appended by `add_future_events_importers`: for every
subject, at its maximal montage, for every enumerated experiment key,
build one BuildEvents handle with the future kwargs and keep it iff its
`check()` returns true. -/
def future_survivors (env : Env) (protocol : String) (idx : Index) : List Importer :=
  idx.subjects.flatMap fun subject =>
    let max_montage := listMax "" (idx.montages subject)
    EXPERIMENTS_KEYS.flatMap fun experiment =>
      let fv := idx.future_view subject max_montage experiment
      let code := idx.subject_alias subject (splitDot1 max_montage)
      let kw := future_session_kwargs protocol subject max_montage experiment code fv
      let importer := Importer.construct .buildEvents kw (env.initErr .buildEvents kw)
      let r := importer.check_call (env.checkOutcome .buildEvents kw)
      if r.2 then [r.1] else []

/-- `Automator.add_future_events_importers` (appends to `self.importers`). -/
def add_future_events_importers (env : Env) (a : Automator) : Automator :=
  { a with importers := a.importers ++ future_survivors env a.protocol a.index }

/-- `Automator.populate_importers`: the three phases in source order —
existing events, then existing montages, then future events. -/
def populate_importers (env : Env) (a : Automator) : Automator :=
  add_future_events_importers env (add_existing_montage_importers env (add_existing_events_importers env a))

/-- `Automator.run_all_imports`: run every retained handle in collection
order; `o` supplies each handle's external pipeline outcome. -/
def run_all_imports (o : Importer → RunOutcome) (a : Automator) : Automator :=
  { a with importers := a.importers.map fun imp => imp.run (o imp) }

/-- The six-field sort key read straight off the instance dictionary
(`'initialized', 'errored', '_should_transfer', 'transferred',
'processed', 'subject'`), ordered lexicographically; Python 2 compares
`None` below every boolean and `False < True`, modelled by
`WithBot Bool`. -/
def sort_key (imp : Importer) :
    Bool ×ₗ Bool ×ₗ WithBot Bool ×ₗ Bool ×ₗ Bool ×ₗ String :=
  toLex (imp.initialized, toLex (imp.errored,
    toLex ((match imp.should_transfer_memo with
            | none => (⊥ : WithBot Bool)
            | some b => (b : WithBot Bool)),
      toLex (imp.transferred, toLex (imp.processed, imp.subject)))))

/-- The boolean comparison handed to the (stable) sort. -/
def sort_key_le (x y : Importer) : Bool := decide (sort_key x ≤ sort_key y)

/-- `Automator.sorted_importers`: stable sort of the handle list by the
six-field key. -/
def sorted_importers (a : Automator) : List Importer :=
  a.importers.mergeSort sort_key_le

/-- Restatement of the claim's existing-session cascade, written from the
spec's words: negative-and-error-free BuildEvents retains nothing; else an
error-free BuildEvents is retained; otherwise a ConvertEvents handle with
identical identity parameters is built, negative-and-error-free retains
nothing, else exactly one handle — ConvertEvents if it alone is
error-free, BuildEvents if both errored. -/
def existing_session_survivors_spec (env : Env) (kwargs : Kwargs) : List Importer :=
  let b := (Importer.construct .buildEvents kwargs (env.initErr .buildEvents kwargs)).check_call
    (env.checkOutcome .buildEvents kwargs)
  if b.2 = false ∧ b.1.errored = false then []
  else if b.1.errored = false then [b.1]
  else
    let c := (Importer.construct .convertEvents kwargs (env.initErr .convertEvents kwargs)).check_call
      (env.checkOutcome .convertEvents kwargs)
    if c.2 = false ∧ c.1.errored = false then []
    else if c.1.errored = false then [c.1]
    else [b.1]

/-- A concrete identity-parameter mapping used by concrete instances. -/
def kw0 : Kwargs :=
  { subject := "R1001P", montage := none, experiment := none, session := none,
    new_experiment := none, original_session := none, do_math := none,
    protocol := none, code := none, do_compare := none }

/-- A concrete handle whose construction failed (builder raised). -/
def uninit0 : Importer := Importer.construct .buildEvents kw0 (some (.exn 1))

/-- A concrete initialized handle whose first `check` raised and whose
second `check` succeeded returning `true`. -/
def recheck0 : Importer :=
  ((Importer.construct .buildEvents kw0 none).check (.raise (.exn 5))).check (.ok true)

/-- A concrete initialized handle with a memoized positive check. -/
def memo0 : Importer := (Importer.construct .buildEvents kw0 none).check (.ok true)

/-- A concrete handle whose first `run` succeeded and whose second `run`
raised the distinguished `UnTransferrableException`. -/
def rerun0 : Importer :=
  ((Importer.construct .buildEvents kw0 none).run .ok).run (.untransferrable (.exn 3))

/-- A concrete hierarchical index: one subject with one montage, one
experiment with one session carrying no remap metadata, and no future
sessions. -/
def idx0 : Index :=
  { subjects := ["R1"]
    montages := fun _ => ["0.0"]
    subject_alias := fun _ _ => "R1A"
    experiments := ["FR1"]
    exp_subjects := fun _ => ["R1"]
    sessions := fun _ _ => [0]
    session_record := fun _ _ _ => ⟨["0.0"], "R1A", none, none⟩
    future_view := fun _ _ _ => ⟨[], fun _ => none, fun _ => none⟩ }

/-- A concrete environment over `idx0`: every builder succeeds; the montage
check and the existing-events check (the one with `do_compare=True`)
report transfer-needed, the future-phase check (`do_compare=False`)
reports no transfer. -/
def env0 : Env :=
  { initErr := fun _ _ => none
    checkOutcome := fun kind kw =>
      match kind with
      | .montage => .ok true
      | _ => if kw.do_compare = some true then .ok true else .ok false }

/-- A concrete orchestrator over `idx0` with an empty importer list. -/
def auto0 : Automator := ⟨"r1", idx0, []⟩

/-- A concrete future-phase view whose latest session is 2 and which
records no remap metadata. -/
def fv0 : FutureView := ⟨[2, 0], fun _ => none, fun _ => none⟩

/-- C2: on a freshly constructed initialized handle, `run` yields exactly
one of three outcomes: the distinguished not-transferable failure
populates exactly the `transfer` slot with `processed` and `transferred`
false; any other failure populates exactly the `processing` slot with
both flags false; success sets both flags with both run slots null. -/
theorem run_outcome_trichotomy (kind : ImporterKind) (kwargs : Kwargs) :
    (∀ e : Err,
      ((Importer.construct kind kwargs none).run (.untransferrable e)).processed = false ∧
      ((Importer.construct kind kwargs none).run (.untransferrable e)).transferred = false ∧
      ((Importer.construct kind kwargs none).run (.untransferrable e)).errors =
        { init := none, check := none, transfer := some e, processing := none }) ∧
    (∀ e : Err,
      ((Importer.construct kind kwargs none).run (.failure e)).processed = false ∧
      ((Importer.construct kind kwargs none).run (.failure e)).transferred = false ∧
      ((Importer.construct kind kwargs none).run (.failure e)).errors =
        { init := none, check := none, transfer := none, processing := some e }) ∧
    (((Importer.construct kind kwargs none).run .ok).processed = true ∧
      ((Importer.construct kind kwargs none).run .ok).transferred = true ∧
      ((Importer.construct kind kwargs none).run .ok).errors.transfer = none ∧
      ((Importer.construct kind kwargs none).run .ok).errors.processing = none) := by
  refine ⟨fun e => ?_, fun e => ?_, ?_⟩ <;>
    simp [Importer.construct, Importer.run, Importer.pipeline_outcome, Importer.set_error,
      Errors.set, Errors.none_all]

/-- C3 counterexample: on a concrete handle whose construction failed,
`run` is not a no-op — it changes the handle (the `processing` slot gets
the caught `AttributeError` from invoking the absent pipeline). -/
theorem run_uninitialized_counterexample : uninit0.run .ok ≠ uninit0 := by decide

/-- C3 amended: on a handle with `initialized = false`, `run` leaves
`processed`, `transferred`, the memoized check value and the other error
slots unchanged, but records `AttributeError` in the `processing` slot
(and `errored` becomes true): the attribute access on the absent pipeline
raises and is caught by the generic handler. -/
theorem run_uninitialized_sets_processing (imp : Importer)
    (h : imp.initialized = false) (o : RunOutcome) :
    imp.run o = imp.set_error .processing .attributeError := by
  simp [Importer.run, Importer.pipeline_outcome, h]

/-- Witness for `run_uninitialized_sets_processing` at the concrete
uninitialized handle. -/
theorem run_uninitialized_sets_processing_witness :
    uninit0.run .ok = uninit0.set_error .processing .attributeError :=
  run_uninitialized_sets_processing uninit0 (by decide) .ok

/-- C4 counterexample: a reachable state (first `check` raised, second
`check` succeeded returning true) in which `should_transfer` is
memoized true while the `check` error slot is still populated — the
success path never clears error slots. -/
theorem check_error_coexists_counterexample :
    Reachable recheck0 ∧ recheck0.should_transfer_memo = some true ∧
      recheck0.errors.check = some (.exn 5) :=
  ⟨Reachable.step_check _ (Reachable.step_check _
      (Reachable.constructed .buildEvents kw0 none)),
    by decide, by decide⟩

/-- C4 amended: if a `check` call fails, afterwards the memoized
`should_transfer` value is false and `errored` is true with the `check`
slot populated; however, because error slots are never cleared, a later
`check` that succeeds returning true on an initialized handle leaves
`should_transfer = true` coexisting with the recorded `check` error. -/
theorem check_failure_resolves_false (imp : Importer) (e : Err) :
    ((imp.check (.raise e)).should_transfer_memo = some false ∧
      (imp.check (.raise e)).errored = true ∧
      (imp.check (.raise e)).errors.check ≠ none) ∧
    (imp.initialized = true →
      ((imp.check (.raise e)).check (.ok true)).should_transfer_memo = some true ∧
      ((imp.check (.raise e)).check (.ok true)).errors.check = some e) := by
  constructor
  · by_cases h : imp.initialized = true <;>
      simp [Importer.check, Importer.transferer_outcome, Importer.set_error, Errors.set, h]
  · intro h
    simp [Importer.check, Importer.transferer_outcome, Importer.set_error, Errors.set, h]

/-- Witness for `check_failure_resolves_false` at a concrete initialized
handle. -/
theorem check_failure_resolves_false_witness :
    ((Importer.construct .buildEvents kw0 none).check (.raise (.exn 5))).should_transfer_memo
        = some false ∧
    (((Importer.construct .buildEvents kw0 none).check (.raise (.exn 5))).check
        (.ok true)).should_transfer_memo = some true :=
  ⟨(check_failure_resolves_false (Importer.construct .buildEvents kw0 none) (.exn 5)).1.1,
    ((check_failure_resolves_false (Importer.construct .buildEvents kw0 none) (.exn 5)).2
      (by decide)).1⟩

/-- C10: on a handle with `initialized = false` the `should_transfer`
accessor never invokes `check` and changes nothing, and on a handle
whose construction failed it returns the unknown value `none`; repeated
reads therefore keep returning `none` through the accessor alone. -/
theorem uninitialized_accessor_returns_unknown (imp : Importer) (o : CheckOutcome)
    (kind : ImporterKind) (kwargs : Kwargs) (e : Err) :
    (imp.initialized = false →
      imp.should_transfer_read o = (imp, imp.should_transfer_memo, false)) ∧
    (Importer.construct kind kwargs (some e)).should_transfer_read o =
      (Importer.construct kind kwargs (some e), none, false) := by
  constructor
  · intro h
    simp [Importer.should_transfer_read, h]
  · simp [Importer.should_transfer_read, Importer.construct, Importer.set_error]

/-- Witness for `uninitialized_accessor_returns_unknown` at the concrete
uninitialized handle. -/
theorem uninitialized_accessor_returns_unknown_witness :
    uninit0.should_transfer_read (.ok true) = (uninit0, uninit0.should_transfer_memo, false) :=
  (uninitialized_accessor_returns_unknown uninit0 (.ok true) .buildEvents kw0 (.exn 1)).1
    (by decide)

/-- C5: on an initialized handle the accessor computes at most once — the
first read after successful construction invokes `check` and memoizes a
definite value; any read with a memoized value returns it without
recomputation or state change; an explicit `check` always recomputes and
overwrites the memoized value from the fresh outcome, even when a
memoized result exists. -/
theorem should_transfer_memoization (imp : Importer) (kind : ImporterKind)
    (kwargs : Kwargs) (o : CheckOutcome) (v : Bool) :
    ((Importer.construct kind kwargs none).should_transfer_read o =
        ((Importer.construct kind kwargs none).check o,
          ((Importer.construct kind kwargs none).check o).should_transfer_memo, true) ∧
      ((Importer.construct kind kwargs none).check o).should_transfer_memo ≠ none) ∧
    (imp.should_transfer_memo = some v →
      imp.should_transfer_read o = (imp, some v, false)) ∧
    (imp.should_transfer_memo = some v → imp.initialized = true →
      (imp.check o).should_transfer_memo =
        some (match o with | .ok b => b | .raise _ => false)) := by
  refine ⟨⟨?_, ?_⟩, fun h => ?_, fun h hi => ?_⟩
  · simp [Importer.should_transfer_read, Importer.construct]
  · cases o <;>
      simp [Importer.check, Importer.transferer_outcome, Importer.construct, Importer.set_error]
  · simp [Importer.should_transfer_read, h]
  · cases o <;>
      simp [Importer.check, Importer.transferer_outcome, Importer.set_error, hi]

/-- Witness for `should_transfer_memoization` at a concrete handle with a
memoized positive check. -/
theorem should_transfer_memoization_witness :
    memo0.should_transfer_read (.ok false) = (memo0, some true, false) ∧
    (memo0.check (.ok false)).should_transfer_memo = some false :=
  ⟨(should_transfer_memoization memo0 .buildEvents kw0 (.ok false) true).2.1 (by decide),
    (should_transfer_memoization memo0 .buildEvents kw0 (.ok false) true).2.2
      (by decide) (by decide)⟩

/-- C6 counterexample: a reachable state (a successful `run` followed by a
second `run` that raised the not-transferable failure) in which
`processed = true` coexists with a populated `transfer` error slot. -/
theorem processed_with_error_counterexample :
    Reachable rerun0 ∧ rerun0.processed = true ∧ rerun0.errors.transfer = some (.exn 3) :=
  ⟨Reachable.step_run _ (Reachable.step_run _
      (Reachable.constructed .buildEvents kw0 none)),
    by decide, by decide⟩

/-- C6 amended: in every reachable state `processed = true` implies
`transferred = true`; the stronger guarantee that both run error slots
are null additionally holds after a single `run` call on a freshly
constructed initialized handle, but not under repeated `run` calls
(a later failed run records an error while `processed` stays true). -/
theorem processed_implies_transferred (imp : Importer) (h : Reachable imp)
    (kind : ImporterKind) (kwargs : Kwargs) (o : RunOutcome) :
    (imp.processed = true → imp.transferred = true) ∧
    (((Importer.construct kind kwargs none).run o).processed = true →
      ((Importer.construct kind kwargs none).run o).transferred = true ∧
      ((Importer.construct kind kwargs none).run o).errors.transfer = none ∧
      ((Importer.construct kind kwargs none).run o).errors.processing = none) := by
  constructor
  · induction h with
    | constructed kind kwargs initErr =>
      cases initErr <;> simp [Importer.construct, Importer.set_error]
    | step_check o h ih =>
      rename_i imp'
      unfold Importer.check
      cases imp'.transferer_outcome o <;> simp [Importer.set_error] <;> exact ih
    | step_run o h ih =>
      rename_i imp'
      unfold Importer.run
      cases imp'.pipeline_outcome o <;> simp [Importer.set_error] <;> exact ih
  · cases o <;>
      simp [Importer.construct, Importer.run, Importer.pipeline_outcome, Importer.set_error,
        Errors.set, Errors.none_all]

/-- Witness for `processed_implies_transferred` at a concrete reachable
processed handle. -/
theorem processed_implies_transferred_witness :
    ((Importer.construct .buildEvents kw0 none).run .ok).transferred = true :=
  (processed_implies_transferred ((Importer.construct .buildEvents kw0 none).run .ok)
      (Reachable.step_run _ (Reachable.constructed .buildEvents kw0 none))
      .buildEvents kw0 .ok).1 (by decide)

/-- C1: the existing-session fallback cascade coincides with the claim's
case analysis (`existing_session_survivors_spec`, written from the spec's
words): a negative error-free BuildEvents check retains nothing; an
error-free BuildEvents is retained alone; otherwise a ConvertEvents
handle with identical identity parameters decides — negative and
error-free retains nothing, else the ConvertEvents handle iff it alone is
error-free, else the BuildEvents handle when both errored. -/
theorem existing_session_cascade (env : Env) (kwargs : Kwargs) :
    existing_session_survivors env kwargs = existing_session_survivors_spec env kwargs := by
  simp only [existing_session_survivors, existing_session_survivors_spec]
  generalize (Importer.construct .buildEvents kwargs
    (env.initErr .buildEvents kwargs)).check_call (env.checkOutcome .buildEvents kwargs) = p
  generalize (Importer.construct .convertEvents kwargs
    (env.initErr .convertEvents kwargs)).check_call (env.checkOutcome .convertEvents kwargs) = q
  obtain ⟨b1, v1⟩ := p
  obtain ⟨b2, v2⟩ := q
  cases v1 <;> cases hb1 : b1.errored <;> cases v2 <;> cases hb2 : b2.errored <;>
    simp [hb1, hb2]

/-- Helper: the seed is below a left fold of `max`. -/
theorem le_foldl_max (x : Nat) (l : List Nat) : x ≤ l.foldl max x := by
  induction l generalizing x with
  | nil => exact le_refl x
  | cons a t ih => exact le_trans (le_max_left x a) (ih (max x a))

/-- Helper: every element is below a left fold of `max`. -/
theorem mem_le_foldl_max (x y : Nat) (l : List Nat) : y ∈ l → y ≤ l.foldl max x := by
  induction l generalizing x with
  | nil => intro h; cases h
  | cons a t ih =>
    intro h
    rw [List.foldl_cons]
    rcases List.mem_cons.mp h with rfl | h
    · exact le_trans (le_max_right x y) (le_foldl_max (max x y) t)
    · exact ih (max x a) h

/-- Helper: a left fold of `max` is the seed or an element. -/
theorem foldl_max_mem (x : Nat) (l : List Nat) : l.foldl max x = x ∨ l.foldl max x ∈ l := by
  induction l generalizing x with
  | nil => exact Or.inl rfl
  | cons a t ih =>
    rcases ih (max x a) with h | h
    · rcases le_total x a with hxa | hxa
      · right
        rw [List.foldl_cons, h, max_eq_right hxa]
        exact List.mem_cons_self a t
      · left
        rw [List.foldl_cons, h, max_eq_left hxa]
    · right
      exact List.mem_cons_of_mem a h

/-- C7: the future-phase kwargs computation.  With no prior session the
handle parameters are session 0, original-session 0 and
original-experiment the current experiment name; with prior sessions and
`N` their maximum (`listMax`, proved to be the genuine maximum), the
parameters are session `N+1`, original-session the recorded value plus
one (defaulting to `N+1` when no remap metadata is recorded, i.e. the
`getD N` base), and original-experiment the recorded value (defaulting to
the current experiment name). -/
theorem future_session_numbering (protocol subject mm experiment code : String)
    (fv : FutureView) :
    (fv.sessions = [] →
      (future_session_kwargs protocol subject mm experiment code fv).session = some 0 ∧
      (future_session_kwargs protocol subject mm experiment code fv).original_session = some 0 ∧
      (future_session_kwargs protocol subject mm experiment code fv).experiment
        = some experiment) ∧
    (∀ s ss, fv.sessions = s :: ss →
      (future_session_kwargs protocol subject mm experiment code fv).session
          = some (listMax 0 fv.sessions + 1) ∧
      (future_session_kwargs protocol subject mm experiment code fv).original_session
          = some ((fv.original_session (listMax 0 fv.sessions)).getD
              (listMax 0 fv.sessions) + 1) ∧
      (future_session_kwargs protocol subject mm experiment code fv).experiment
          = some ((fv.original_experiment (listMax 0 fv.sessions)).getD experiment) ∧
      listMax 0 fv.sessions ∈ fv.sessions ∧
      (∀ y ∈ fv.sessions, y ≤ listMax 0 fv.sessions)) := by
  constructor
  · intro h
    simp [future_session_kwargs, h]
  · intro s ss h
    have hmem : listMax 0 fv.sessions ∈ fv.sessions := by
      rw [h]
      simp only [listMax]
      rcases foldl_max_mem s ss with h1 | h1
      · rw [h1]; exact List.mem_cons_self s ss
      · exact List.mem_cons_of_mem s h1
    have hmax : ∀ y ∈ fv.sessions, y ≤ listMax 0 fv.sessions := by
      intro y hy
      rw [h] at hy ⊢
      simp only [listMax]
      rcases List.mem_cons.mp hy with rfl | hy
      · exact le_foldl_max y ss
      · exact mem_le_foldl_max s y ss hy
    refine ⟨?_, ?_, ?_, hmem, hmax⟩ <;>
      cases ho : fv.original_session (listMax 0 fv.sessions) <;>
      cases he : fv.original_experiment (listMax 0 fv.sessions) <;>
      simp [future_session_kwargs, h, ho, he]
      <;> simp [h] at ho he <;> simp [ho, he]

/-- Witness for `future_session_numbering` at a concrete view whose
maximal session is 2 with no remap metadata. -/
theorem future_session_numbering_witness :
    (future_session_kwargs "r1" "R1" "0.0" "FR1" "R1A" fv0).session = some 3 ∧
    (future_session_kwargs "r1" "R1" "0.0" "FR1" "R1A" fv0).original_session = some 3 ∧
    (future_session_kwargs "r1" "R1" "0.0" "FR1" "R1A" fv0).experiment = some "FR1" := by
  have h := (future_session_numbering "r1" "R1" "0.0" "FR1" "R1A" fv0).2 2 [0] rfl
  exact ⟨h.1, h.2.1, h.2.2.1⟩

/-- C9 counterexample: at a concrete index and environment where the
montage phase and the existing-events phase each retain one handle, the
populated list is not "montage survivors, then events survivors, then
future survivors" — the code runs the events phase first. -/
theorem populate_order_counterexample :
    (populate_importers env0 auto0).importers ≠
      montage_survivors env0 auto0.protocol auto0.index ++
        events_survivors env0 auto0.protocol auto0.index ++
        future_survivors env0 auto0.protocol auto0.index := by decide

/-- C9 amended: `populate_importers` runs the existing-session events
phase first, then the montage phase, then the future-session phase,
appending all surviving handles into one flat collection with no
cross-phase deduplication: the result is the events survivors, then the
montage survivors, then the future survivors. -/
theorem populate_importers_order (env : Env) (a : Automator) :
    (populate_importers env a).importers =
      a.importers ++ events_survivors env a.protocol a.index ++
        montage_survivors env a.protocol a.index ++
        future_survivors env a.protocol a.index := by
  simp [populate_importers, add_existing_events_importers, add_existing_montage_importers,
    add_future_events_importers, List.append_assoc]

/-- Helper: the sort comparison is transitive. -/
theorem sort_key_le_trans (x y z : Importer) (h1 : sort_key_le x y = true)
    (h2 : sort_key_le y z = true) : sort_key_le x z = true := by
  simp only [sort_key_le, decide_eq_true_eq] at h1 h2 ⊢
  exact le_trans h1 h2

/-- Helper: the sort comparison is total. -/
theorem sort_key_le_total (x y : Importer) :
    sort_key_le x y || sort_key_le y x := by
  simp only [sort_key_le, Bool.or_eq_true, decide_eq_true_eq]
  exact le_total _ _

/-- C8: `sorted_importers` is a pure function of the handle list that
returns a permutation of it, sorted by the ascending six-field key
(initialized, errored, memoized should-transfer, transferred, processed,
subject) with false below true and the unknown tri-state below both, and
the sort is stable: any key-sorted sublist of the input is still a
sublist of the output. -/
theorem sorted_importers_correct (a : Automator) :
    (sorted_importers a).Perm a.importers ∧
    (sorted_importers a).Pairwise (fun x y => sort_key x ≤ sort_key y) ∧
    (∀ c : List Importer, c.Pairwise (fun x y => sort_key_le x y = true) →
      c.Sublist a.importers → c.Sublist (sorted_importers a)) := by
  refine ⟨List.mergeSort_perm a.importers sort_key_le, ?_, ?_⟩
  · have h := List.sorted_mergeSort sort_key_le_trans sort_key_le_total a.importers
    exact h.imp (fun hxy => by
      simpa only [sort_key_le, decide_eq_true_eq] using hxy)
  · intro c hc hsub
    exact List.sublist_mergeSort sort_key_le_trans sort_key_le_total hc hsub

/-- Witness for `sorted_importers_correct` applying the stability clause
to the empty sublist of a concrete orchestrator. -/
theorem sorted_importers_correct_witness :
    List.Sublist [] (sorted_importers auto0) :=
  (sorted_importers_correct auto0).2.2 [] List.Pairwise.nil (List.nil_sublist _)

end EventCreation
